import Mathlib

/-!
Verification of the client-side registration exchange in
`src/sample/reg_client/reg_client.c` (function `reg_client_register`).

The CoAP message library and the transport layer are external collaborators
(their sources are not part of this repository snapshot); they are modelled
abstractly: an environment supplies the return codes of the message-builder
calls, the return code of `coap_client_exchange`, and the decoded response
message (version, code class/detail, URI path segments, payload bytes).
The control flow, checks, error codes, buffer writes and log calls of
`reg_client_register` itself are translated line by line from the C source.
-/

/-- Modelled from the spec: CoAP protocol version constant `COAP_MSG_VER`
(the version a freshly created request message carries); the header
`coap_msg.h` is not in the snapshot. CoAP wire version is 1. -/
def COAP_MSG_VER : Nat := 1

/-- Modelled from the spec: `COAP_MSG_CON`, the Confirmable message type. -/
def COAP_MSG_CON : Nat := 0

/-- Modelled from the spec: `COAP_MSG_REQ`, the request code class. -/
def COAP_MSG_REQ : Nat := 0

/-- Modelled from the spec: `COAP_MSG_POST`, the POST method code detail. -/
def COAP_MSG_POST : Nat := 2

/-- Modelled from the spec: `COAP_MSG_SUCCESS`, the success code class
(the `2` of `2.01 Created` / `2.04 Changed`). -/
def COAP_MSG_SUCCESS : Nat := 2

/-- Modelled from the spec: `COAP_MSG_CREATED`, code detail of `2.01 Created`. -/
def COAP_MSG_CREATED : Nat := 1

/-- Modelled from the spec: `COAP_MSG_CHANGED`, code detail of `2.04 Changed`. -/
def COAP_MSG_CHANGED : Nat := 4

/-- `EBADMSG` from `errno.h` (Linux value 74); `reg_client_register`
returns `-EBADMSG` on every protocol violation. -/
def EBADMSG : Int := 74

/-- `ENOSPC` from `errno.h` (Linux value 28); `reg_client_register`
returns `-ENOSPC` when a buffer is undersized. -/
def ENOSPC : Int := 28

/-- `REG_CLIENT_URI_PATH_BUF_LEN`: capacity of the stack buffer into which
the response URI path is rendered (reg_client.c line 37). -/
def REG_CLIENT_URI_PATH_BUF_LEN : Nat := 32

/-- The bytes of a C string stored in a byte buffer: everything up to the
first NUL. Models `strlen`/`strcmp` reads of a `char *` buffer. -/
def cstring (buf : List Nat) : List Nat :=
  buf.takeWhile (fun b => b != 0)

/-- The byte content of the literal acknowledgement `"OK"`
(`'O'` = 79, `'K'` = 75). -/
def okPayload : List Nat := [79, 75]

/-- The log calls `reg_client_register` makes, one constructor per call
site, carrying the data the format string reports. -/
inductive LogEvent where
  /-- info: `"Sending POST /client/id request with payload: ..."` -/
  | sendingRequest : LogEvent
  /-- error: `"Failed to set URI path in request message"` -/
  | uriPathSetFail : LogEvent
  /-- error: `"Failed to set payload in request message"` -/
  | payloadSetFail : LogEvent
  /-- error: `strerror(-ret)` after a transport failure other than `-1` -/
  | transportErr (ret : Int) : LogEvent
  /-- error: `"Received response message with invalid version: %d"` -/
  | invalidVersion (ver : Nat) : LogEvent
  /-- error: `"... invalid code class: %d, code detail: %d"` -/
  | invalidCode (cls det : Nat) : LogEvent
  /-- error: `"URI path buffer too small by %zd bytes"` -/
  | uriPathBufTooSmall (shortfall : Nat) : LogEvent
  /-- error: `"Received response message with invalid URI path: ..."` -/
  | invalidUriPath (path : String) : LogEvent
  /-- error: `"Received response message with invalid payload"` -/
  | invalidPayload : LogEvent
  /-- error: `"Payload buffer too small by %zd bytes"` -/
  | payloadBufTooSmall (shortfall : Nat) : LogEvent
  /-- error: `"Received response message with unexpected payload: ..."` -/
  | unexpectedPayload : LogEvent
  /-- info: `"Received CREATED/CHANGED ... response with payload: ..."` -/
  | receivedResponse (created : Bool) : LogEvent
deriving Repr, DecidableEq

/-- Whether a log event is a `coap_log_error` line (as opposed to
`coap_log_info`). -/
def LogEvent.isError : LogEvent → Bool
  | .sendingRequest => false
  | .receivedResponse _ => false
  | _ => true

/-- The response message as read back through the message-collaborator
accessors: `coap_msg_get_ver`, `coap_msg_get_code_class`,
`coap_msg_get_code_detail`, the URI-path options, `coap_msg_get_payload`
(`none` models a NULL pointer) and `coap_msg_get_payload_len`. -/
structure CoapResp where
  ver : Nat
  codeClass : Nat
  codeDetail : Nat
  uriPathSegs : List String
  payload : Option (List Nat)
deriving Repr, DecidableEq

/-- The request message as assembled by `reg_client_register`:
type, code class/detail, URI path options and payload. -/
structure CoapReq where
  msgType : Nat
  codeClass : Nat
  codeDetail : Nat
  uriPathSegs : List String
  payload : List Nat
deriving Repr, DecidableEq

/-- Observable outcome of one `reg_client_register` call: the returned
`int`, the caller buffer contents after the call, the final value of the
local `created` flag (reported in the success log line), the request
handed to `coap_client_exchange` (if the exchange was reached), and the
log lines emitted, in order. -/
structure RegResult where
  ret : Int
  buf : List Nat
  created : Bool
  sentReq : Option CoapReq
  logs : List LogEvent
deriving Repr, DecidableEq

/-- The abstract collaborators of one call: return codes of
`coap_msg_add_op` (segment `"client"`), `coap_msg_add_op` (segment
`"id"`), `coap_msg_set_payload`, `coap_client_exchange`, and the response
message the exchange delivered (read only when the exchange succeeded). -/
structure Env where
  addOpClientRet : Int
  addOpIdRet : Int
  setPayloadRet : Int
  exchangeRet : Int
  resp : CoapResp
deriving Repr, DecidableEq

/-- Modelled from the spec: `coap_msg_uri_path_to_str` (message
collaborator, not in the snapshot) renders the URI-path segments as
`"/" ++ seg` for each segment in order and returns the length of the full
rendering; the buffer receives the full string whenever it fits. -/
def uriPathToStr (segs : List String) : String :=
  String.join (segs.map (fun s => "/" ++ s))

/-- The response payload bytes (empty list when the pointer is NULL). -/
def respPayload (resp : CoapResp) : List Nat :=
  resp.payload.getD []

/-- The condition of the payload-presence check:
`(p == NULL) || (n == 0)` (reg_client.c line 187). -/
def respPayloadBad (resp : CoapResp) : Prop :=
  resp.payload = none ∨ (respPayload resp).length = 0

instance (resp : CoapResp) : Decidable (respPayloadBad resp) :=
  inferInstanceAs (Decidable (resp.payload = none ∨ (respPayload resp).length = 0))

/-- The condition of the status check, literally as written at
reg_client.c lines 160-161. -/
def respStatusBad (resp : CoapResp) : Prop :=
  resp.codeClass ≠ COAP_MSG_SUCCESS ∨
    (resp.codeDetail ≠ COAP_MSG_CREATED ∧ resp.codeDetail ≠ COAP_MSG_CHANGED)

instance (resp : CoapResp) : Decidable (respStatusBad resp) :=
  inferInstanceAs (Decidable (resp.codeClass ≠ COAP_MSG_SUCCESS ∨
    (resp.codeDetail ≠ COAP_MSG_CREATED ∧ resp.codeDetail ≠ COAP_MSG_CHANGED)))

/-- Acceptable status: code class `Success` and code detail `Created` or
`Changed` (the negation of the condition at reg_client.c lines 160-161). -/
def respStatusOK (resp : CoapResp) : Prop :=
  resp.codeClass = COAP_MSG_SUCCESS ∧
    (resp.codeDetail = COAP_MSG_CREATED ∨ resp.codeDetail = COAP_MSG_CHANGED)

/-- The caller buffer contents after `memcpy(buf, p, n)` followed by
`memset(buf + n, 0, len - n)` (reg_client.c lines 201-202). -/
def copiedBuf (resp : CoapResp) (len : Nat) : List Nat :=
  respPayload resp ++ List.replicate (len - (respPayload resp).length) 0

/-- The request `reg_client_register` builds when every builder call
succeeds: Confirmable POST, URI path `"client"` then `"id"`, payload the
caller's NUL-terminated identity string (reg_client.c lines 111-129). -/
def builtRequest (buf : List Nat) : CoapReq :=
  { msgType := COAP_MSG_CON
    codeClass := COAP_MSG_REQ
    codeDetail := COAP_MSG_POST
    uriPathSegs := ["client", "id"]
    payload := cstring buf }

/-- The response-processing phase of `reg_client_register`
(reg_client.c lines 152-212): version check, status check, `created`
derivation, URI-path rendering and comparison, payload presence check,
caller-buffer capacity check, copy + zero fill, acknowledgement check. -/
def processResponse (req : CoapReq) (resp : CoapResp) (buf : List Nat)
    (len : Nat) (logs : List LogEvent) : RegResult :=
  if COAP_MSG_VER ≠ resp.ver then
    { ret := -EBADMSG, buf := buf, created := false, sentReq := some req
      logs := logs ++ [LogEvent.invalidVersion resp.ver] }
  else if respStatusBad resp then
    { ret := -EBADMSG, buf := buf, created := false, sentReq := some req
      logs := logs ++ [LogEvent.invalidCode resp.codeClass resp.codeDetail] }
  else if (uriPathToStr resp.uriPathSegs).length + 1 > REG_CLIENT_URI_PATH_BUF_LEN then
    { ret := -ENOSPC, buf := buf
      created := resp.codeDetail == COAP_MSG_CREATED, sentReq := some req
      logs := logs ++ [LogEvent.uriPathBufTooSmall
        ((uriPathToStr resp.uriPathSegs).length + 1 - REG_CLIENT_URI_PATH_BUF_LEN)] }
  else if uriPathToStr resp.uriPathSegs ≠ "/client/id" then
    { ret := -EBADMSG, buf := buf
      created := resp.codeDetail == COAP_MSG_CREATED, sentReq := some req
      logs := logs ++ [LogEvent.invalidUriPath (uriPathToStr resp.uriPathSegs)] }
  else if respPayloadBad resp then
    { ret := -EBADMSG, buf := buf
      created := resp.codeDetail == COAP_MSG_CREATED, sentReq := some req
      logs := logs ++ [LogEvent.invalidPayload] }
  else if (respPayload resp).length + 1 > len then
    { ret := -ENOSPC, buf := buf
      created := resp.codeDetail == COAP_MSG_CREATED, sentReq := some req
      logs := logs ++ [LogEvent.payloadBufTooSmall
        ((respPayload resp).length + 1 - len)] }
  else if cstring (copiedBuf resp len) ≠ okPayload then
    { ret := -EBADMSG, buf := copiedBuf resp len
      created := resp.codeDetail == COAP_MSG_CREATED, sentReq := some req
      logs := logs ++ [LogEvent.unexpectedPayload] }
  else
    { ret := ((respPayload resp).length : Int), buf := copiedBuf resp len
      created := resp.codeDetail == COAP_MSG_CREATED, sentReq := some req
      logs := logs ++ [LogEvent.receivedResponse
        (resp.codeDetail == COAP_MSG_CREATED)] }

/-- `reg_client_register` (reg_client.c lines 100-213): build the request
(any builder failure is propagated unchanged), run the exchange (a
negative return is propagated unchanged, with `strerror` logged unless it
is the pre-logged DTLS sentinel `-1`), then process the response.
`buf` is the caller buffer's byte content, `len` its capacity. -/
def regClientRegister (env : Env) (buf : List Nat) (len : Nat) : RegResult :=
  if env.addOpClientRet < 0 then
    { ret := env.addOpClientRet, buf := buf, created := false, sentReq := none
      logs := [LogEvent.sendingRequest, LogEvent.uriPathSetFail] }
  else if env.addOpIdRet < 0 then
    { ret := env.addOpIdRet, buf := buf, created := false, sentReq := none
      logs := [LogEvent.sendingRequest, LogEvent.uriPathSetFail] }
  else if env.setPayloadRet < 0 then
    { ret := env.setPayloadRet, buf := buf, created := false, sentReq := none
      logs := [LogEvent.sendingRequest, LogEvent.payloadSetFail] }
  else if env.exchangeRet < 0 then
    { ret := env.exchangeRet, buf := buf, created := false
      sentReq := some (builtRequest buf)
      logs := [LogEvent.sendingRequest] ++
        (if env.exchangeRet = -1 then [] else [LogEvent.transportErr env.exchangeRet]) }
  else
    processResponse (builtRequest buf) env.resp buf len [LogEvent.sendingRequest]

/-! ### Shared stage lemmas

One equation per exit branch of `reg_client_register`, each under the
hypotheses that steer control flow to that branch. -/

theorem statusBad_iff (resp : CoapResp) :
    respStatusBad resp ↔ ¬ respStatusOK resp := by
  unfold respStatusBad respStatusOK
  tauto

theorem regClientRegister_addOpClient_fail (env : Env) (buf : List Nat) (len : Nat)
    (h1 : env.addOpClientRet < 0) :
    regClientRegister env buf len =
      { ret := env.addOpClientRet, buf := buf, created := false, sentReq := none
        logs := [LogEvent.sendingRequest, LogEvent.uriPathSetFail] } := by
  unfold regClientRegister
  rw [if_pos h1]

theorem regClientRegister_addOpId_fail (env : Env) (buf : List Nat) (len : Nat)
    (h1 : ¬ env.addOpClientRet < 0) (h2 : env.addOpIdRet < 0) :
    regClientRegister env buf len =
      { ret := env.addOpIdRet, buf := buf, created := false, sentReq := none
        logs := [LogEvent.sendingRequest, LogEvent.uriPathSetFail] } := by
  unfold regClientRegister
  rw [if_neg h1, if_pos h2]

theorem regClientRegister_setPayload_fail (env : Env) (buf : List Nat) (len : Nat)
    (h1 : ¬ env.addOpClientRet < 0) (h2 : ¬ env.addOpIdRet < 0)
    (h3 : env.setPayloadRet < 0) :
    regClientRegister env buf len =
      { ret := env.setPayloadRet, buf := buf, created := false, sentReq := none
        logs := [LogEvent.sendingRequest, LogEvent.payloadSetFail] } := by
  unfold regClientRegister
  rw [if_neg h1, if_neg h2, if_pos h3]

theorem regClientRegister_exchange_fail (env : Env) (buf : List Nat) (len : Nat)
    (h1 : ¬ env.addOpClientRet < 0) (h2 : ¬ env.addOpIdRet < 0)
    (h3 : ¬ env.setPayloadRet < 0) (h4 : env.exchangeRet < 0) :
    regClientRegister env buf len =
      { ret := env.exchangeRet, buf := buf, created := false
        sentReq := some (builtRequest buf)
        logs := [LogEvent.sendingRequest] ++
          (if env.exchangeRet = -1 then [] else [LogEvent.transportErr env.exchangeRet]) } := by
  unfold regClientRegister
  rw [if_neg h1, if_neg h2, if_neg h3, if_pos h4]

theorem regClientRegister_exchange_ok (env : Env) (buf : List Nat) (len : Nat)
    (h1 : ¬ env.addOpClientRet < 0) (h2 : ¬ env.addOpIdRet < 0)
    (h3 : ¬ env.setPayloadRet < 0) (h4 : ¬ env.exchangeRet < 0) :
    regClientRegister env buf len =
      processResponse (builtRequest buf) env.resp buf len [LogEvent.sendingRequest] := by
  unfold regClientRegister
  rw [if_neg h1, if_neg h2, if_neg h3, if_neg h4]

theorem processResponse_verBad (req : CoapReq) (resp : CoapResp) (buf : List Nat)
    (len : Nat) (logs : List LogEvent) (hv : resp.ver ≠ COAP_MSG_VER) :
    processResponse req resp buf len logs =
      { ret := -EBADMSG, buf := buf, created := false, sentReq := some req
        logs := logs ++ [LogEvent.invalidVersion resp.ver] } := by
  unfold processResponse
  rw [if_pos (Ne.symm hv)]

theorem processResponse_statusBad (req : CoapReq) (resp : CoapResp) (buf : List Nat)
    (len : Nat) (logs : List LogEvent) (hv : resp.ver = COAP_MSG_VER)
    (hs : ¬ respStatusOK resp) :
    processResponse req resp buf len logs =
      { ret := -EBADMSG, buf := buf, created := false, sentReq := some req
        logs := logs ++ [LogEvent.invalidCode resp.codeClass resp.codeDetail] } := by
  unfold processResponse
  rw [if_neg (not_ne_iff.mpr hv.symm), if_pos ((statusBad_iff resp).mpr hs)]

theorem processResponse_pathOverflow (req : CoapReq) (resp : CoapResp) (buf : List Nat)
    (len : Nat) (logs : List LogEvent) (hv : resp.ver = COAP_MSG_VER)
    (hs : respStatusOK resp)
    (ho : (uriPathToStr resp.uriPathSegs).length + 1 > REG_CLIENT_URI_PATH_BUF_LEN) :
    processResponse req resp buf len logs =
      { ret := -ENOSPC, buf := buf
        created := resp.codeDetail == COAP_MSG_CREATED, sentReq := some req
        logs := logs ++ [LogEvent.uriPathBufTooSmall
          ((uriPathToStr resp.uriPathSegs).length + 1 - REG_CLIENT_URI_PATH_BUF_LEN)] } := by
  unfold processResponse
  rw [if_neg (not_ne_iff.mpr hv.symm), if_neg (fun hb => (statusBad_iff resp).mp hb hs),
    if_pos ho]

theorem processResponse_pathMismatch (req : CoapReq) (resp : CoapResp) (buf : List Nat)
    (len : Nat) (logs : List LogEvent) (hv : resp.ver = COAP_MSG_VER)
    (hs : respStatusOK resp)
    (ho : ¬ (uriPathToStr resp.uriPathSegs).length + 1 > REG_CLIENT_URI_PATH_BUF_LEN)
    (hp : uriPathToStr resp.uriPathSegs ≠ "/client/id") :
    processResponse req resp buf len logs =
      { ret := -EBADMSG, buf := buf
        created := resp.codeDetail == COAP_MSG_CREATED, sentReq := some req
        logs := logs ++ [LogEvent.invalidUriPath (uriPathToStr resp.uriPathSegs)] } := by
  unfold processResponse
  rw [if_neg (not_ne_iff.mpr hv.symm), if_neg (fun hb => (statusBad_iff resp).mp hb hs),
    if_neg ho, if_pos hp]

theorem processResponse_payloadBad (req : CoapReq) (resp : CoapResp) (buf : List Nat)
    (len : Nat) (logs : List LogEvent) (hv : resp.ver = COAP_MSG_VER)
    (hs : respStatusOK resp)
    (hpath : uriPathToStr resp.uriPathSegs = "/client/id")
    (hpl : respPayloadBad resp) :
    processResponse req resp buf len logs =
      { ret := -EBADMSG, buf := buf
        created := resp.codeDetail == COAP_MSG_CREATED, sentReq := some req
        logs := logs ++ [LogEvent.invalidPayload] } := by
  unfold processResponse
  rw [hpath, if_neg (not_ne_iff.mpr hv.symm),
    if_neg (fun hb => (statusBad_iff resp).mp hb hs),
    if_neg (by decide), if_neg (by simp), if_pos hpl]

theorem processResponse_capBad (req : CoapReq) (resp : CoapResp) (buf : List Nat)
    (len : Nat) (logs : List LogEvent) (hv : resp.ver = COAP_MSG_VER)
    (hs : respStatusOK resp)
    (hpath : uriPathToStr resp.uriPathSegs = "/client/id")
    (hpl : ¬ respPayloadBad resp)
    (hcap : (respPayload resp).length + 1 > len) :
    processResponse req resp buf len logs =
      { ret := -ENOSPC, buf := buf
        created := resp.codeDetail == COAP_MSG_CREATED, sentReq := some req
        logs := logs ++ [LogEvent.payloadBufTooSmall
          ((respPayload resp).length + 1 - len)] } := by
  unfold processResponse
  rw [hpath, if_neg (not_ne_iff.mpr hv.symm),
    if_neg (fun hb => (statusBad_iff resp).mp hb hs),
    if_neg (by decide), if_neg (by simp), if_neg hpl, if_pos hcap]

theorem processResponse_ackBad (req : CoapReq) (resp : CoapResp) (buf : List Nat)
    (len : Nat) (logs : List LogEvent) (hv : resp.ver = COAP_MSG_VER)
    (hs : respStatusOK resp)
    (hpath : uriPathToStr resp.uriPathSegs = "/client/id")
    (hpl : ¬ respPayloadBad resp)
    (hcap : ¬ (respPayload resp).length + 1 > len)
    (hack : cstring (copiedBuf resp len) ≠ okPayload) :
    processResponse req resp buf len logs =
      { ret := -EBADMSG, buf := copiedBuf resp len
        created := resp.codeDetail == COAP_MSG_CREATED, sentReq := some req
        logs := logs ++ [LogEvent.unexpectedPayload] } := by
  unfold processResponse
  rw [hpath, if_neg (not_ne_iff.mpr hv.symm),
    if_neg (fun hb => (statusBad_iff resp).mp hb hs),
    if_neg (by decide), if_neg (by simp), if_neg hpl, if_neg hcap, if_pos hack]

theorem processResponse_success (req : CoapReq) (resp : CoapResp) (buf : List Nat)
    (len : Nat) (logs : List LogEvent) (hv : resp.ver = COAP_MSG_VER)
    (hs : respStatusOK resp)
    (hpath : uriPathToStr resp.uriPathSegs = "/client/id")
    (hpl : ¬ respPayloadBad resp)
    (hcap : ¬ (respPayload resp).length + 1 > len)
    (hack : cstring (copiedBuf resp len) = okPayload) :
    processResponse req resp buf len logs =
      { ret := ((respPayload resp).length : Int), buf := copiedBuf resp len
        created := resp.codeDetail == COAP_MSG_CREATED, sentReq := some req
        logs := logs ++ [LogEvent.receivedResponse
          (resp.codeDetail == COAP_MSG_CREATED)] } := by
  unfold processResponse
  rw [hpath, if_neg (not_ne_iff.mpr hv.symm),
    if_neg (fun hb => (statusBad_iff resp).mp hb hs),
    if_neg (by decide), if_neg (by simp), if_neg hpl, if_neg hcap,
    if_neg (not_ne_iff.mpr hack)]

theorem processResponse_sentReq (req : CoapReq) (resp : CoapResp) (buf : List Nat)
    (len : Nat) (logs : List LogEvent) :
    (processResponse req resp buf len logs).sentReq = some req := by
  unfold processResponse
  repeat' split
  all_goals rfl

theorem processResponse_created_of_statusOK (req : CoapReq) (resp : CoapResp)
    (buf : List Nat) (len : Nat) (logs : List LogEvent)
    (hv : resp.ver = COAP_MSG_VER) (hs : respStatusOK resp) :
    (processResponse req resp buf len logs).created =
      (resp.codeDetail == COAP_MSG_CREATED) := by
  unfold processResponse
  rw [if_neg (not_ne_iff.mpr hv.symm), if_neg (fun hb => (statusBad_iff resp).mp hb hs)]
  repeat' split
  all_goals rfl

/-! ### Claim theorems -/

/-- Claim C2: with a valid response (matching version, status 2.01 Created or
2.04 Changed, URI path `/client/id`, payload exactly `"OK"`) and caller
buffer capacity 16, `reg_client_register` returns the payload length 2, the
`created` flag is true for Created and false for Changed, and the caller
buffer afterwards holds `"OK"` followed by zero padding up to capacity. -/
theorem claim_C2 (env : Env) (buf : List Nat)
    (h1 : ¬ env.addOpClientRet < 0) (h2 : ¬ env.addOpIdRet < 0)
    (h3 : ¬ env.setPayloadRet < 0) (h4 : ¬ env.exchangeRet < 0)
    (hv : env.resp.ver = COAP_MSG_VER)
    (hcls : env.resp.codeClass = COAP_MSG_SUCCESS)
    (hdet : env.resp.codeDetail = COAP_MSG_CREATED ∨
      env.resp.codeDetail = COAP_MSG_CHANGED)
    (hpath : uriPathToStr env.resp.uriPathSegs = "/client/id")
    (hpl : env.resp.payload = some okPayload) :
    (regClientRegister env buf 16).ret = 2 ∧
    (env.resp.codeDetail = COAP_MSG_CREATED →
      (regClientRegister env buf 16).created = true) ∧
    (env.resp.codeDetail = COAP_MSG_CHANGED →
      (regClientRegister env buf 16).created = false) ∧
    (regClientRegister env buf 16).buf = okPayload ++ List.replicate 14 0 := by
  have hpv : respPayload env.resp = okPayload := by simp [respPayload, hpl]
  have hs : respStatusOK env.resp := ⟨hcls, hdet⟩
  have hplb : ¬ respPayloadBad env.resp := by
    simp [respPayloadBad, hpl, hpv, okPayload]
  have hcap : ¬ (respPayload env.resp).length + 1 > 16 := by
    rw [hpv]; decide
  have hack : cstring (copiedBuf env.resp 16) = okPayload := by
    unfold copiedBuf; rw [hpv]; decide
  rw [regClientRegister_exchange_ok env buf 16 h1 h2 h3 h4,
    processResponse_success _ _ _ _ _ hv hs hpath hplb hcap hack]
  refine ⟨?_, ?_, ?_, ?_⟩
  · show ((respPayload env.resp).length : Int) = 2
    rw [hpv]; decide
  · intro h
    show (env.resp.codeDetail == COAP_MSG_CREATED) = true
    rw [h]; decide
  · intro h
    show (env.resp.codeDetail == COAP_MSG_CREATED) = false
    rw [h]; decide
  · show copiedBuf env.resp 16 = okPayload ++ List.replicate 14 0
    unfold copiedBuf; rw [hpv]; rfl

/-- Witness for C2 at the spec's Scenario A/B inputs: identity
`"device-42"`, response `2.01 Created /client/id "OK"`, capacity 16. -/
theorem claim_C2_witness :
    (regClientRegister
        ⟨0, 0, 0, 0, ⟨1, 2, 1, ["client", "id"], some okPayload⟩⟩
        [100, 101, 118, 105, 99, 101, 45, 52, 50, 0, 0, 0, 0, 0, 0, 0] 16).ret = 2 ∧
    ((⟨1, 2, 1, ["client", "id"], some okPayload⟩ : CoapResp).codeDetail = COAP_MSG_CREATED →
      (regClientRegister
        ⟨0, 0, 0, 0, ⟨1, 2, 1, ["client", "id"], some okPayload⟩⟩
        [100, 101, 118, 105, 99, 101, 45, 52, 50, 0, 0, 0, 0, 0, 0, 0] 16).created = true) ∧
    ((⟨1, 2, 1, ["client", "id"], some okPayload⟩ : CoapResp).codeDetail = COAP_MSG_CHANGED →
      (regClientRegister
        ⟨0, 0, 0, 0, ⟨1, 2, 1, ["client", "id"], some okPayload⟩⟩
        [100, 101, 118, 105, 99, 101, 45, 52, 50, 0, 0, 0, 0, 0, 0, 0] 16).created = false) ∧
    (regClientRegister
        ⟨0, 0, 0, 0, ⟨1, 2, 1, ["client", "id"], some okPayload⟩⟩
        [100, 101, 118, 105, 99, 101, 45, 52, 50, 0, 0, 0, 0, 0, 0, 0] 16).buf =
      okPayload ++ List.replicate 14 0 :=
  claim_C2 ⟨0, 0, 0, 0, ⟨1, 2, 1, ["client", "id"], some okPayload⟩⟩
    [100, 101, 118, 105, 99, 101, 45, 52, 50, 0, 0, 0, 0, 0, 0, 0]
    (by decide) (by decide) (by decide) (by decide) (by decide) (by decide)
    (by decide) (by decide) (by decide)

/-- Claim C3: whenever the message collaborator accepts the identity payload
(all three builder calls succeed), the request handed to the exchange is a
Confirmable POST whose URI path is exactly the two ordered segments
`"client"` then `"id"` and whose payload equals the caller's identity
string P. -/
theorem claim_C3 (env : Env) (buf : List Nat) (len : Nat)
    (h1 : ¬ env.addOpClientRet < 0) (h2 : ¬ env.addOpIdRet < 0)
    (h3 : ¬ env.setPayloadRet < 0) :
    (regClientRegister env buf len).sentReq =
      some { msgType := COAP_MSG_CON, codeClass := COAP_MSG_REQ
             codeDetail := COAP_MSG_POST, uriPathSegs := ["client", "id"]
             payload := cstring buf } := by
  by_cases h4 : env.exchangeRet < 0
  · rw [regClientRegister_exchange_fail env buf len h1 h2 h3 h4]
    rfl
  · rw [regClientRegister_exchange_ok env buf len h1 h2 h3 h4,
      processResponse_sentReq]
    rfl

/-- Witness for C3: with all builder calls succeeding, the sent request is
the Confirmable POST to `/client/id` carrying the identity `"id1"`. -/
theorem claim_C3_witness :
    (regClientRegister ⟨0, 0, 0, 0, ⟨1, 2, 1, ["client", "id"], some okPayload⟩⟩
        [105, 100, 49, 0] 4).sentReq =
      some { msgType := COAP_MSG_CON, codeClass := COAP_MSG_REQ
             codeDetail := COAP_MSG_POST, uriPathSegs := ["client", "id"]
             payload := cstring [105, 100, 49, 0] } :=
  claim_C3 ⟨0, 0, 0, 0, ⟨1, 2, 1, ["client", "id"], some okPayload⟩⟩
    [105, 100, 49, 0] 4 (by decide) (by decide) (by decide)

/-- Claim C4: a response whose version differs from the request's version
makes `reg_client_register` return `-EBADMSG` with the caller buffer
byte-for-byte unchanged. -/
theorem claim_C4 (env : Env) (buf : List Nat) (len : Nat)
    (h1 : ¬ env.addOpClientRet < 0) (h2 : ¬ env.addOpIdRet < 0)
    (h3 : ¬ env.setPayloadRet < 0) (h4 : ¬ env.exchangeRet < 0)
    (hv : env.resp.ver ≠ COAP_MSG_VER) :
    (regClientRegister env buf len).ret = -EBADMSG ∧
    (regClientRegister env buf len).buf = buf := by
  rw [regClientRegister_exchange_ok env buf len h1 h2 h3 h4,
    processResponse_verBad _ _ _ _ _ hv]
  exact ⟨rfl, rfl⟩

/-- Witness for C4 at version 2 (request version is 1). -/
theorem claim_C4_witness :
    (regClientRegister ⟨0, 0, 0, 0, ⟨2, 2, 1, ["client", "id"], some okPayload⟩⟩
        [0, 0, 0, 0] 4).ret = -EBADMSG ∧
    (regClientRegister ⟨0, 0, 0, 0, ⟨2, 2, 1, ["client", "id"], some okPayload⟩⟩
        [0, 0, 0, 0] 4).buf = [0, 0, 0, 0] :=
  claim_C4 ⟨0, 0, 0, 0, ⟨2, 2, 1, ["client", "id"], some okPayload⟩⟩
    [0, 0, 0, 0] 4 (by decide) (by decide) (by decide) (by decide) (by decide)

/-- Claim C5: once the version check passes, an acceptable status makes the
`created` flag equal `(codeDetail == Created)`, while any other class/detail
combination (including a non-Success class with detail Created or Changed)
returns `-EBADMSG` with the flag still at its initial `false`. -/
theorem claim_C5 (env : Env) (buf : List Nat) (len : Nat)
    (h1 : ¬ env.addOpClientRet < 0) (h2 : ¬ env.addOpIdRet < 0)
    (h3 : ¬ env.setPayloadRet < 0) (h4 : ¬ env.exchangeRet < 0)
    (hv : env.resp.ver = COAP_MSG_VER) :
    (respStatusOK env.resp →
      ((regClientRegister env buf len).created = true ↔
        env.resp.codeDetail = COAP_MSG_CREATED)) ∧
    (¬ respStatusOK env.resp →
      (regClientRegister env buf len).ret = -EBADMSG ∧
      (regClientRegister env buf len).created = false) := by
  rw [regClientRegister_exchange_ok env buf len h1 h2 h3 h4]
  constructor
  · intro hs
    rw [processResponse_created_of_statusOK _ _ _ _ _ hv hs]
    exact beq_iff_eq
  · intro hs
    rw [processResponse_statusBad _ _ _ _ _ hv hs]
    exact ⟨rfl, rfl⟩

/-- Witness for C5 at status class 4 (client error) with detail Created:
rejected with `created` still false. -/
theorem claim_C5_witness :
    ((respStatusOK ⟨1, 4, 1, ["client", "id"], some okPayload⟩ →
      ((regClientRegister ⟨0, 0, 0, 0, ⟨1, 4, 1, ["client", "id"], some okPayload⟩⟩
          [0, 0, 0, 0] 4).created = true ↔
        (⟨1, 4, 1, ["client", "id"], some okPayload⟩ : CoapResp).codeDetail =
          COAP_MSG_CREATED)) ∧
    (¬ respStatusOK ⟨1, 4, 1, ["client", "id"], some okPayload⟩ →
      (regClientRegister ⟨0, 0, 0, 0, ⟨1, 4, 1, ["client", "id"], some okPayload⟩⟩
          [0, 0, 0, 0] 4).ret = -EBADMSG ∧
      (regClientRegister ⟨0, 0, 0, 0, ⟨1, 4, 1, ["client", "id"], some okPayload⟩⟩
          [0, 0, 0, 0] 4).created = false)) :=
  claim_C5 ⟨0, 0, 0, 0, ⟨1, 4, 1, ["client", "id"], some okPayload⟩⟩
    [0, 0, 0, 0] 4 (by decide) (by decide) (by decide) (by decide) (by decide)

/-- Claim C6: an undersized buffer yields `-ENOSPC` with the exact shortfall
reported: if the rendered URI path needs more than the 32-byte render
buffer the logged shortfall is `(renderedLength + 1) - 32`, and if the
response payload needs more than the caller buffer the logged shortfall is
`(payloadLength + 1) - bufferCapacity`. -/
theorem claim_C6 (env : Env) (buf : List Nat) (len : Nat)
    (h1 : ¬ env.addOpClientRet < 0) (h2 : ¬ env.addOpIdRet < 0)
    (h3 : ¬ env.setPayloadRet < 0) (h4 : ¬ env.exchangeRet < 0)
    (hv : env.resp.ver = COAP_MSG_VER) (hs : respStatusOK env.resp) :
    ((uriPathToStr env.resp.uriPathSegs).length + 1 > REG_CLIENT_URI_PATH_BUF_LEN →
      (regClientRegister env buf len).ret = -ENOSPC ∧
      (regClientRegister env buf len).logs = [LogEvent.sendingRequest,
        LogEvent.uriPathBufTooSmall
          ((uriPathToStr env.resp.uriPathSegs).length + 1 - REG_CLIENT_URI_PATH_BUF_LEN)]) ∧
    (uriPathToStr env.resp.uriPathSegs = "/client/id" →
      ¬ respPayloadBad env.resp →
      (respPayload env.resp).length + 1 > len →
      (regClientRegister env buf len).ret = -ENOSPC ∧
      (regClientRegister env buf len).logs = [LogEvent.sendingRequest,
        LogEvent.payloadBufTooSmall ((respPayload env.resp).length + 1 - len)]) := by
  rw [regClientRegister_exchange_ok env buf len h1 h2 h3 h4]
  constructor
  · intro ho
    rw [processResponse_pathOverflow _ _ _ _ _ hv hs ho]
    exact ⟨rfl, rfl⟩
  · intro hpath hpl hcap
    rw [processResponse_capBad _ _ _ _ _ hv hs hpath hpl hcap]
    exact ⟨rfl, rfl⟩

/-- Witness for C6 at the spec's Scenario E: payload `"OK"` (length 2) with
caller capacity 1, so the reported shortfall is 2; the URI-path part is
vacuous here (`/client/id` fits the 32-byte render buffer). -/
theorem claim_C6_witness :
    (((uriPathToStr (⟨1, 2, 1, ["client", "id"], some okPayload⟩ : CoapResp).uriPathSegs).length + 1 >
        REG_CLIENT_URI_PATH_BUF_LEN →
      (regClientRegister ⟨0, 0, 0, 0, ⟨1, 2, 1, ["client", "id"], some okPayload⟩⟩
          [0] 1).ret = -ENOSPC ∧
      (regClientRegister ⟨0, 0, 0, 0, ⟨1, 2, 1, ["client", "id"], some okPayload⟩⟩
          [0] 1).logs = [LogEvent.sendingRequest,
        LogEvent.uriPathBufTooSmall
          ((uriPathToStr (⟨1, 2, 1, ["client", "id"], some okPayload⟩ : CoapResp).uriPathSegs).length + 1 -
            REG_CLIENT_URI_PATH_BUF_LEN)]) ∧
    (uriPathToStr (⟨1, 2, 1, ["client", "id"], some okPayload⟩ : CoapResp).uriPathSegs = "/client/id" →
      ¬ respPayloadBad ⟨1, 2, 1, ["client", "id"], some okPayload⟩ →
      (respPayload ⟨1, 2, 1, ["client", "id"], some okPayload⟩).length + 1 > 1 →
      (regClientRegister ⟨0, 0, 0, 0, ⟨1, 2, 1, ["client", "id"], some okPayload⟩⟩
          [0] 1).ret = -ENOSPC ∧
      (regClientRegister ⟨0, 0, 0, 0, ⟨1, 2, 1, ["client", "id"], some okPayload⟩⟩
          [0] 1).logs = [LogEvent.sendingRequest,
        LogEvent.payloadBufTooSmall
          ((respPayload ⟨1, 2, 1, ["client", "id"], some okPayload⟩).length + 1 - 1)])) :=
  claim_C6 ⟨0, 0, 0, 0, ⟨1, 2, 1, ["client", "id"], some okPayload⟩⟩ [0] 1
    (by decide) (by decide) (by decide) (by decide) (by decide)
    ⟨by decide, Or.inl (by decide)⟩

/-- Claim C7: a response that passes every earlier check but whose payload
is not exactly `"OK"` makes `reg_client_register` return `-EBADMSG`, and at
that point the caller buffer holds the mismatched payload zero-filled to
capacity rather than its original content. -/
theorem claim_C7 (env : Env) (buf : List Nat) (len : Nat)
    (h1 : ¬ env.addOpClientRet < 0) (h2 : ¬ env.addOpIdRet < 0)
    (h3 : ¬ env.setPayloadRet < 0) (h4 : ¬ env.exchangeRet < 0)
    (hv : env.resp.ver = COAP_MSG_VER) (hs : respStatusOK env.resp)
    (hpath : uriPathToStr env.resp.uriPathSegs = "/client/id")
    (hpl : ¬ respPayloadBad env.resp)
    (hcap : ¬ (respPayload env.resp).length + 1 > len)
    (hack : cstring (copiedBuf env.resp len) ≠ okPayload) :
    (regClientRegister env buf len).ret = -EBADMSG ∧
    (regClientRegister env buf len).buf =
      respPayload env.resp ++
        List.replicate (len - (respPayload env.resp).length) 0 := by
  rw [regClientRegister_exchange_ok env buf len h1 h2 h3 h4,
    processResponse_ackBad _ _ _ _ _ hv hs hpath hpl hcap hack]
  exact ⟨rfl, rfl⟩

/-- Witness for C7 at the spec's Scenario C: payload `"FAIL"`, capacity 16;
the original buffer content `[1,1,1,...]` is overwritten. -/
theorem claim_C7_witness :
    (regClientRegister ⟨0, 0, 0, 0, ⟨1, 2, 1, ["client", "id"], some [70, 65, 73, 76]⟩⟩
        (List.replicate 16 1) 16).ret = -EBADMSG ∧
    (regClientRegister ⟨0, 0, 0, 0, ⟨1, 2, 1, ["client", "id"], some [70, 65, 73, 76]⟩⟩
        (List.replicate 16 1) 16).buf =
      respPayload ⟨1, 2, 1, ["client", "id"], some [70, 65, 73, 76]⟩ ++
        List.replicate (16 - (respPayload ⟨1, 2, 1, ["client", "id"], some [70, 65, 73, 76]⟩).length) 0 :=
  claim_C7 ⟨0, 0, 0, 0, ⟨1, 2, 1, ["client", "id"], some [70, 65, 73, 76]⟩⟩
    (List.replicate 16 1) 16
    (by decide) (by decide) (by decide) (by decide) (by decide)
    ⟨by decide, Or.inl (by decide)⟩ (by decide) (by decide) (by decide) (by decide)

/-- Claim C8: a transport-level failure is propagated unchanged; the
distinguished sentinel `-1` (a DTLS failure the lower layer already logged)
produces no additional error log line, while every other transport error is
logged with a human-readable reason (`strerror`) before returning. -/
theorem claim_C8 (env : Env) (buf : List Nat) (len : Nat)
    (h1 : ¬ env.addOpClientRet < 0) (h2 : ¬ env.addOpIdRet < 0)
    (h3 : ¬ env.setPayloadRet < 0) (h4 : env.exchangeRet < 0) :
    (regClientRegister env buf len).ret = env.exchangeRet ∧
    (env.exchangeRet = -1 →
      (regClientRegister env buf len).logs.filter LogEvent.isError = []) ∧
    (env.exchangeRet ≠ -1 →
      (regClientRegister env buf len).logs.filter LogEvent.isError =
        [LogEvent.transportErr env.exchangeRet]) := by
  rw [regClientRegister_exchange_fail env buf len h1 h2 h3 h4]
  refine ⟨rfl, ?_, ?_⟩
  · intro hsent
    rw [if_pos hsent]
    rfl
  · intro hsent
    rw [if_neg hsent]
    rfl

/-- Witness for C8 at the spec's Scenario F: the pre-logged sentinel `-1`
is returned with no error log line. -/
theorem claim_C8_witness :
    (regClientRegister ⟨0, 0, 0, -1, ⟨1, 2, 1, ["client", "id"], some okPayload⟩⟩
        [0, 0, 0, 0] 4).ret = -1 ∧
    ((-1 : Int) = -1 →
      (regClientRegister ⟨0, 0, 0, -1, ⟨1, 2, 1, ["client", "id"], some okPayload⟩⟩
          [0, 0, 0, 0] 4).logs.filter LogEvent.isError = []) ∧
    ((-1 : Int) ≠ -1 →
      (regClientRegister ⟨0, 0, 0, -1, ⟨1, 2, 1, ["client", "id"], some okPayload⟩⟩
          [0, 0, 0, 0] 4).logs.filter LogEvent.isError =
        [LogEvent.transportErr (-1)]) :=
  claim_C8 ⟨0, 0, 0, -1, ⟨1, 2, 1, ["client", "id"], some okPayload⟩⟩
    [0, 0, 0, 0] 4 (by decide) (by decide) (by decide) (by decide)

/-- Claim C1: once the request was built and the exchange succeeded, the
call returns success exactly when all of the following hold — version
equality, acceptable status (Success with Created or Changed), rendered
URI path equal to `"/client/id"`, non-null non-empty payload, payload
length plus one within the caller capacity, and copied content equal to
`"OK"` — and the checks run in that fixed order with short-circuiting, the
first failing check determining the returned error (`-EBADMSG` for
protocol violations, `-ENOSPC` when the URI-path render buffer or the
caller buffer is undersized). -/
theorem claim_C1 (env : Env) (buf : List Nat) (len : Nat)
    (h1 : ¬ env.addOpClientRet < 0) (h2 : ¬ env.addOpIdRet < 0)
    (h3 : ¬ env.setPayloadRet < 0) (h4 : ¬ env.exchangeRet < 0) :
    (0 ≤ (regClientRegister env buf len).ret ↔
      (env.resp.ver = COAP_MSG_VER ∧ respStatusOK env.resp ∧
       uriPathToStr env.resp.uriPathSegs = "/client/id" ∧
       ¬ respPayloadBad env.resp ∧
       (respPayload env.resp).length + 1 ≤ len ∧
       cstring (copiedBuf env.resp len) = okPayload)) ∧
    (env.resp.ver ≠ COAP_MSG_VER →
      (regClientRegister env buf len).ret = -EBADMSG) ∧
    (env.resp.ver = COAP_MSG_VER → ¬ respStatusOK env.resp →
      (regClientRegister env buf len).ret = -EBADMSG) ∧
    (env.resp.ver = COAP_MSG_VER → respStatusOK env.resp →
      uriPathToStr env.resp.uriPathSegs ≠ "/client/id" →
      (regClientRegister env buf len).ret =
        (if (uriPathToStr env.resp.uriPathSegs).length + 1 > REG_CLIENT_URI_PATH_BUF_LEN
          then -ENOSPC else -EBADMSG)) ∧
    (env.resp.ver = COAP_MSG_VER → respStatusOK env.resp →
      uriPathToStr env.resp.uriPathSegs = "/client/id" →
      respPayloadBad env.resp →
      (regClientRegister env buf len).ret = -EBADMSG) ∧
    (env.resp.ver = COAP_MSG_VER → respStatusOK env.resp →
      uriPathToStr env.resp.uriPathSegs = "/client/id" →
      ¬ respPayloadBad env.resp →
      (respPayload env.resp).length + 1 > len →
      (regClientRegister env buf len).ret = -ENOSPC) ∧
    (env.resp.ver = COAP_MSG_VER → respStatusOK env.resp →
      uriPathToStr env.resp.uriPathSegs = "/client/id" →
      ¬ respPayloadBad env.resp →
      ¬ (respPayload env.resp).length + 1 > len →
      cstring (copiedBuf env.resp len) ≠ okPayload →
      (regClientRegister env buf len).ret = -EBADMSG) := by
  rw [regClientRegister_exchange_ok env buf len h1 h2 h3 h4]
  refine ⟨?_, ?_, ?_, ?_, ?_, ?_, ?_⟩
  · constructor
    · intro hret
      by_cases hv : env.resp.ver = COAP_MSG_VER
      case neg =>
        rw [processResponse_verBad _ _ _ _ _ hv] at hret
        simp [EBADMSG, ENOSPC] at hret
      by_cases hs : respStatusOK env.resp
      case neg =>
        rw [processResponse_statusBad _ _ _ _ _ hv hs] at hret
        simp [EBADMSG, ENOSPC] at hret
      by_cases hpath : uriPathToStr env.resp.uriPathSegs = "/client/id"
      case neg =>
        by_cases ho : (uriPathToStr env.resp.uriPathSegs).length + 1 >
            REG_CLIENT_URI_PATH_BUF_LEN
        · rw [processResponse_pathOverflow _ _ _ _ _ hv hs ho] at hret
          simp [EBADMSG, ENOSPC] at hret
        · rw [processResponse_pathMismatch _ _ _ _ _ hv hs ho hpath] at hret
          simp [EBADMSG, ENOSPC] at hret
      by_cases hpl : respPayloadBad env.resp
      case pos =>
        rw [processResponse_payloadBad _ _ _ _ _ hv hs hpath hpl] at hret
        simp [EBADMSG, ENOSPC] at hret
      by_cases hcap : (respPayload env.resp).length + 1 > len
      case pos =>
        rw [processResponse_capBad _ _ _ _ _ hv hs hpath hpl hcap] at hret
        simp [EBADMSG, ENOSPC] at hret
      by_cases hack : cstring (copiedBuf env.resp len) = okPayload
      case neg =>
        rw [processResponse_ackBad _ _ _ _ _ hv hs hpath hpl hcap hack] at hret
        simp [EBADMSG, ENOSPC] at hret
      exact ⟨hv, hs, hpath, hpl, le_of_not_lt hcap, hack⟩
    · rintro ⟨hv, hs, hpath, hpl, hcap, hack⟩
      rw [processResponse_success _ _ _ _ _ hv hs hpath hpl (not_lt.mpr hcap) hack]
      exact Int.natCast_nonneg _
  · intro hv
    rw [processResponse_verBad _ _ _ _ _ hv]
  · intro hv hs
    rw [processResponse_statusBad _ _ _ _ _ hv hs]
  · intro hv hs hpath
    by_cases ho : (uriPathToStr env.resp.uriPathSegs).length + 1 >
        REG_CLIENT_URI_PATH_BUF_LEN
    · rw [if_pos ho, processResponse_pathOverflow _ _ _ _ _ hv hs ho]
    · rw [if_neg ho, processResponse_pathMismatch _ _ _ _ _ hv hs ho hpath]
  · intro hv hs hpath hpl
    rw [processResponse_payloadBad _ _ _ _ _ hv hs hpath hpl]
  · intro hv hs hpath hpl hcap
    rw [processResponse_capBad _ _ _ _ _ hv hs hpath hpl hcap]
  · intro hv hs hpath hpl hcap hack
    rw [processResponse_ackBad _ _ _ _ _ hv hs hpath hpl hcap hack]

/-- Witness for C1 at a fully valid exchange (response `2.01 Created
/client/id "OK"`, capacity 16), where the acceptance equivalence and every
first-failure clause are discharged concretely. -/
theorem claim_C1_witness :
    ((0 ≤ (regClientRegister ⟨0, 0, 0, 0, ⟨1, 2, 1, ["client", "id"], some okPayload⟩⟩
        [0, 0, 0, 0] 16).ret ↔
      ((⟨1, 2, 1, ["client", "id"], some okPayload⟩ : CoapResp).ver = COAP_MSG_VER ∧ respStatusOK (⟨1, 2, 1, ["client", "id"], some okPayload⟩ : CoapResp) ∧
       uriPathToStr (⟨1, 2, 1, ["client", "id"], some okPayload⟩ : CoapResp).uriPathSegs = "/client/id" ∧
       ¬ respPayloadBad (⟨1, 2, 1, ["client", "id"], some okPayload⟩ : CoapResp) ∧
       (respPayload (⟨1, 2, 1, ["client", "id"], some okPayload⟩ : CoapResp)).length + 1 ≤ 16 ∧
       cstring (copiedBuf (⟨1, 2, 1, ["client", "id"], some okPayload⟩ : CoapResp) 16) = okPayload)) ∧
    ((⟨1, 2, 1, ["client", "id"], some okPayload⟩ : CoapResp).ver ≠ COAP_MSG_VER →
      (regClientRegister ⟨0, 0, 0, 0, ⟨1, 2, 1, ["client", "id"], some okPayload⟩⟩
        [0, 0, 0, 0] 16).ret = -EBADMSG) ∧
    ((⟨1, 2, 1, ["client", "id"], some okPayload⟩ : CoapResp).ver = COAP_MSG_VER → ¬ respStatusOK (⟨1, 2, 1, ["client", "id"], some okPayload⟩ : CoapResp) →
      (regClientRegister ⟨0, 0, 0, 0, ⟨1, 2, 1, ["client", "id"], some okPayload⟩⟩
        [0, 0, 0, 0] 16).ret = -EBADMSG) ∧
    ((⟨1, 2, 1, ["client", "id"], some okPayload⟩ : CoapResp).ver = COAP_MSG_VER → respStatusOK (⟨1, 2, 1, ["client", "id"], some okPayload⟩ : CoapResp) →
      uriPathToStr (⟨1, 2, 1, ["client", "id"], some okPayload⟩ : CoapResp).uriPathSegs ≠ "/client/id" →
      (regClientRegister ⟨0, 0, 0, 0, ⟨1, 2, 1, ["client", "id"], some okPayload⟩⟩
        [0, 0, 0, 0] 16).ret =
        (if (uriPathToStr (⟨1, 2, 1, ["client", "id"], some okPayload⟩ : CoapResp).uriPathSegs).length + 1 > REG_CLIENT_URI_PATH_BUF_LEN
          then -ENOSPC else -EBADMSG)) ∧
    ((⟨1, 2, 1, ["client", "id"], some okPayload⟩ : CoapResp).ver = COAP_MSG_VER → respStatusOK (⟨1, 2, 1, ["client", "id"], some okPayload⟩ : CoapResp) →
      uriPathToStr (⟨1, 2, 1, ["client", "id"], some okPayload⟩ : CoapResp).uriPathSegs = "/client/id" →
      respPayloadBad (⟨1, 2, 1, ["client", "id"], some okPayload⟩ : CoapResp) →
      (regClientRegister ⟨0, 0, 0, 0, ⟨1, 2, 1, ["client", "id"], some okPayload⟩⟩
        [0, 0, 0, 0] 16).ret = -EBADMSG) ∧
    ((⟨1, 2, 1, ["client", "id"], some okPayload⟩ : CoapResp).ver = COAP_MSG_VER → respStatusOK (⟨1, 2, 1, ["client", "id"], some okPayload⟩ : CoapResp) →
      uriPathToStr (⟨1, 2, 1, ["client", "id"], some okPayload⟩ : CoapResp).uriPathSegs = "/client/id" →
      ¬ respPayloadBad (⟨1, 2, 1, ["client", "id"], some okPayload⟩ : CoapResp) →
      (respPayload (⟨1, 2, 1, ["client", "id"], some okPayload⟩ : CoapResp)).length + 1 > 16 →
      (regClientRegister ⟨0, 0, 0, 0, ⟨1, 2, 1, ["client", "id"], some okPayload⟩⟩
        [0, 0, 0, 0] 16).ret = -ENOSPC) ∧
    ((⟨1, 2, 1, ["client", "id"], some okPayload⟩ : CoapResp).ver = COAP_MSG_VER → respStatusOK (⟨1, 2, 1, ["client", "id"], some okPayload⟩ : CoapResp) →
      uriPathToStr (⟨1, 2, 1, ["client", "id"], some okPayload⟩ : CoapResp).uriPathSegs = "/client/id" →
      ¬ respPayloadBad (⟨1, 2, 1, ["client", "id"], some okPayload⟩ : CoapResp) →
      ¬ (respPayload (⟨1, 2, 1, ["client", "id"], some okPayload⟩ : CoapResp)).length + 1 > 16 →
      cstring (copiedBuf (⟨1, 2, 1, ["client", "id"], some okPayload⟩ : CoapResp) 16) ≠ okPayload →
      (regClientRegister ⟨0, 0, 0, 0, ⟨1, 2, 1, ["client", "id"], some okPayload⟩⟩
        [0, 0, 0, 0] 16).ret = -EBADMSG)) :=
  claim_C1 ⟨0, 0, 0, 0, ⟨1, 2, 1, ["client", "id"], some okPayload⟩⟩
    [0, 0, 0, 0] 16 (by decide) (by decide) (by decide) (by decide)

/-- Claim C9: on every error exit before the payload copy (builder failure,
transport error, version mismatch, bad status, URI-path render overflow or
mismatch, missing/empty payload, undersized caller buffer) the caller
buffer is byte-for-byte unchanged; the buffer differs from its input only
once every pre-copy check has passed, and the only error outcome that can
then occur is the acknowledgement-content failure. -/
theorem claim_C9 (env : Env) (buf : List Nat) (len : Nat) :
    (regClientRegister env buf len).buf = buf ∨
    ((¬ env.addOpClientRet < 0 ∧ ¬ env.addOpIdRet < 0 ∧ ¬ env.setPayloadRet < 0 ∧
      ¬ env.exchangeRet < 0 ∧ env.resp.ver = COAP_MSG_VER ∧ respStatusOK env.resp ∧
      uriPathToStr env.resp.uriPathSegs = "/client/id" ∧ ¬ respPayloadBad env.resp ∧
      ¬ (respPayload env.resp).length + 1 > len) ∧
     (regClientRegister env buf len).buf = copiedBuf env.resp len ∧
     ((regClientRegister env buf len).ret < 0 →
       cstring (copiedBuf env.resp len) ≠ okPayload)) := by
  by_cases h1 : env.addOpClientRet < 0
  · exact Or.inl (by rw [regClientRegister_addOpClient_fail env buf len h1])
  by_cases h2 : env.addOpIdRet < 0
  · exact Or.inl (by rw [regClientRegister_addOpId_fail env buf len h1 h2])
  by_cases h3 : env.setPayloadRet < 0
  · exact Or.inl (by rw [regClientRegister_setPayload_fail env buf len h1 h2 h3])
  by_cases h4 : env.exchangeRet < 0
  · exact Or.inl (by rw [regClientRegister_exchange_fail env buf len h1 h2 h3 h4])
  rw [regClientRegister_exchange_ok env buf len h1 h2 h3 h4]
  by_cases hv : env.resp.ver = COAP_MSG_VER
  case neg => exact Or.inl (by rw [processResponse_verBad _ _ _ _ _ hv])
  by_cases hs : respStatusOK env.resp
  case neg => exact Or.inl (by rw [processResponse_statusBad _ _ _ _ _ hv hs])
  by_cases hpath : uriPathToStr env.resp.uriPathSegs = "/client/id"
  case neg =>
    by_cases ho : (uriPathToStr env.resp.uriPathSegs).length + 1 >
        REG_CLIENT_URI_PATH_BUF_LEN
    · exact Or.inl (by rw [processResponse_pathOverflow _ _ _ _ _ hv hs ho])
    · exact Or.inl (by rw [processResponse_pathMismatch _ _ _ _ _ hv hs ho hpath])
  by_cases hpl : respPayloadBad env.resp
  case pos => exact Or.inl (by rw [processResponse_payloadBad _ _ _ _ _ hv hs hpath hpl])
  by_cases hcap : (respPayload env.resp).length + 1 > len
  case pos => exact Or.inl (by rw [processResponse_capBad _ _ _ _ _ hv hs hpath hpl hcap])
  by_cases hack : cstring (copiedBuf env.resp len) = okPayload
  case neg =>
    refine Or.inr ⟨⟨h1, h2, h3, h4, hv, hs, hpath, hpl, hcap⟩, ?_, ?_⟩
    · rw [processResponse_ackBad _ _ _ _ _ hv hs hpath hpl hcap hack]
    · intro _
      exact hack
  refine Or.inr ⟨⟨h1, h2, h3, h4, hv, hs, hpath, hpl, hcap⟩, ?_, ?_⟩
  · rw [processResponse_success _ _ _ _ _ hv hs hpath hpl hcap hack]
  · rw [processResponse_success _ _ _ _ _ hv hs hpath hpl hcap hack]
    intro hlt
    exact absurd hlt (not_lt.mpr (Int.natCast_nonneg _))

/-- Claim C10: the acknowledgement check reads the copied buffer as a
NUL-terminated string, so a longer payload whose first three bytes are
`'O','K',0x00` is accepted; the successful return value is always the full
response payload length. Conjunct one is the universal statement; the rest
evaluate the concrete payload `[79, 75, 0, 88]` (length 4 > 2), for which
the call succeeds and returns 4, not 2. -/
theorem claim_C10 (env : Env) (buf : List Nat) (len : Nat)
    (h1 : ¬ env.addOpClientRet < 0) (h2 : ¬ env.addOpIdRet < 0)
    (h3 : ¬ env.setPayloadRet < 0) (h4 : ¬ env.exchangeRet < 0) :
    (0 ≤ (regClientRegister env buf len).ret →
      (regClientRegister env buf len).ret = ((respPayload env.resp).length : Int)) ∧
    (regClientRegister ⟨0, 0, 0, 0, ⟨1, 2, 1, ["client", "id"], some [79, 75, 0, 88]⟩⟩
        (List.replicate 16 0) 16).ret = 4 ∧
    (respPayload ⟨1, 2, 1, ["client", "id"], some [79, 75, 0, 88]⟩).length = 4 ∧
    (respPayload ⟨1, 2, 1, ["client", "id"], some [79, 75, 0, 88]⟩).take 3 =
      [79, 75, 0] := by
  refine ⟨?_, by decide, by decide, by decide⟩
  rw [regClientRegister_exchange_ok env buf len h1 h2 h3 h4]
  intro hret
  by_cases hv : env.resp.ver = COAP_MSG_VER
  case neg =>
    rw [processResponse_verBad _ _ _ _ _ hv] at hret
    simp [EBADMSG, ENOSPC] at hret
  by_cases hs : respStatusOK env.resp
  case neg =>
    rw [processResponse_statusBad _ _ _ _ _ hv hs] at hret
    simp [EBADMSG, ENOSPC] at hret
  by_cases hpath : uriPathToStr env.resp.uriPathSegs = "/client/id"
  case neg =>
    by_cases ho : (uriPathToStr env.resp.uriPathSegs).length + 1 >
        REG_CLIENT_URI_PATH_BUF_LEN
    · rw [processResponse_pathOverflow _ _ _ _ _ hv hs ho] at hret
      simp [EBADMSG, ENOSPC] at hret
    · rw [processResponse_pathMismatch _ _ _ _ _ hv hs ho hpath] at hret
      simp [EBADMSG, ENOSPC] at hret
  by_cases hpl : respPayloadBad env.resp
  case pos =>
    rw [processResponse_payloadBad _ _ _ _ _ hv hs hpath hpl] at hret
    simp [EBADMSG, ENOSPC] at hret
  by_cases hcap : (respPayload env.resp).length + 1 > len
  case pos =>
    rw [processResponse_capBad _ _ _ _ _ hv hs hpath hpl hcap] at hret
    simp [EBADMSG, ENOSPC] at hret
  by_cases hack : cstring (copiedBuf env.resp len) = okPayload
  case neg =>
    rw [processResponse_ackBad _ _ _ _ _ hv hs hpath hpl hcap hack] at hret
    simp [EBADMSG, ENOSPC] at hret
  rw [processResponse_success _ _ _ _ _ hv hs hpath hpl hcap hack]

/-- Witness for C10 at the NUL-embedded payload `[79, 75, 0, 88]`
(`"OK\x7b0x00,0x58\x7d"`): the call succeeds and returns the full length 4. -/
theorem claim_C10_witness :
    ((0 ≤ (regClientRegister ⟨0, 0, 0, 0, ⟨1, 2, 1, ["client", "id"], some [79, 75, 0, 88]⟩⟩
        (List.replicate 16 0) 16).ret →
      (regClientRegister ⟨0, 0, 0, 0, ⟨1, 2, 1, ["client", "id"], some [79, 75, 0, 88]⟩⟩
        (List.replicate 16 0) 16).ret = ((respPayload (⟨1, 2, 1, ["client", "id"], some [79, 75, 0, 88]⟩ : CoapResp)).length : Int)) ∧
    (regClientRegister ⟨0, 0, 0, 0, ⟨1, 2, 1, ["client", "id"], some [79, 75, 0, 88]⟩⟩
        (List.replicate 16 0) 16).ret = 4 ∧
    (respPayload ⟨1, 2, 1, ["client", "id"], some [79, 75, 0, 88]⟩).length = 4 ∧
    (respPayload ⟨1, 2, 1, ["client", "id"], some [79, 75, 0, 88]⟩).take 3 =
      [79, 75, 0]) :=
  claim_C10 ⟨0, 0, 0, 0, ⟨1, 2, 1, ["client", "id"], some [79, 75, 0, 88]⟩⟩
    (List.replicate 16 0) 16 (by decide) (by decide) (by decide) (by decide)
